import Mathlib

/-!
Verification of the InvisibleChat capture-exclusion subsystem and chat
transport against their sources.

The embedding models `src/src/utils.py` (handle resolution, the DWM and
display-affinity exclusion mechanisms, and the orchestrator
`set_window_excluded_from_capture`) and `src/src/api_client.py`
(`GrokAPIClient.send_query` and `GrokAPIClient._parse_response`).

Python exceptions are modelled with `Except PyErr`; a platform environment
`WinEnv` supplies the outcome of every ctypes interaction (library loads,
function resolution, and the calls themselves), and every embedded function
additionally returns the list of platform calls it issued, so that
"mechanism X was never attempted" is a statement about that trace.
-/

/-- A Python exception, identified by its rendered message. -/
abbrev PyErr := String

/-- One platform interaction issued through ctypes. -/
inductive PCall where
  /-- `ctypes.WinDLL("user32", use_last_error=True)` -/
  | loadUser32
  /-- `ctypes.WinDLL("dwmapi", use_last_error=True)` -/
  | loadDwmapi
  /-- `GetAncestor(hwnd, GA_ROOT)` -/
  | getAncestor (hwnd : Nat)
  /-- `DwmSetWindowAttribute(root, attr, byref(true_val), sizeof(true_val))` -/
  | dwmSetWindowAttribute (root : Nat) (attr : Nat)
  /-- `SetWindowDisplayAffinity(root, affinity)` -/
  | setWindowDisplayAffinity (root : Nat) (affinity : Nat)
deriving Repr, DecidableEq

/-- Is this call an invocation of the legacy display-affinity mechanism? -/
def PCall.isAffinityCall : PCall → Bool
  | .setWindowDisplayAffinity _ _ => true
  | _ => false

/-- The platform as seen through ctypes: whether the host is Windows, and the
outcome (normal return or raised exception) of each library load, function
resolution and platform call the source may issue.  Handles are modelled as
natural numbers with `0` as the null handle. -/
structure WinEnv where
  /-- `IS_WINDOWS`: the `ctypes` / `wintypes` import succeeded. -/
  isWindows : Bool
  /-- outcome of `ctypes.WinDLL("user32", use_last_error=True)` -/
  loadUser32 : Except PyErr Unit
  /-- outcome of `ctypes.WinDLL("dwmapi", use_last_error=True)` -/
  loadDwmapi : Except PyErr Unit
  /-- outcome of resolving `user32.GetAncestor` -/
  resolveGetAncestor : Except PyErr Unit
  /-- outcome of resolving `dwmapi.DwmSetWindowAttribute` -/
  resolveDwmSetWindowAttribute : Except PyErr Unit
  /-- outcome of resolving `user32.SetWindowDisplayAffinity` -/
  resolveSetWindowDisplayAffinity : Except PyErr Unit
  /-- result of `GetAncestor(hwnd, flag)`; `0` models a NULL HWND -/
  getAncestor : Nat → Nat → Nat
  /-- result of `DwmSetWindowAttribute(root, attr, ...)`: an HRESULT,
  or a raised exception -/
  dwmSetWindowAttribute : Nat → Nat → Except PyErr Int
  /-- result of `SetWindowDisplayAffinity(root, affinity)`: a BOOL
  (`true` = call reported success), or a raised exception -/
  setWindowDisplayAffinity : Nat → Nat → Except PyErr Bool

/-- `GA_ROOT = 2` (utils.py line 77). -/
def GA_ROOT : Nat := 2

/-- `DWMWA_EXCLUDED_FROM_CAPTURE = 39` (utils.py line 100). -/
def DWMWA_EXCLUDED_FROM_CAPTURE : Nat := 39

/-- `WDA_EXCLUDEFROMCAPTURE = 0x00000011` (utils.py line 134). -/
def WDA_EXCLUDEFROMCAPTURE : Nat := 0x00000011

/-- `WDA_MONITOR = 0x00000001` (utils.py line 135). -/
def WDA_MONITOR : Nat := 0x00000001

/-- `_get_root_hwnd` (utils.py lines 73-85): resolve a handle to its GA_ROOT
ancestor, falling back to the input handle when the query returns NULL.
Returns the Python result (or raised exception) together with the platform
calls issued. -/
def _get_root_hwnd (env : WinEnv) (hwnd : Nat) : Except PyErr Nat × List PCall :=
  if env.isWindows = false then (.ok hwnd, [])
  else
    match env.loadUser32 with
    | .error e => (.error e, [.loadUser32])
    | .ok _ =>
      match env.resolveGetAncestor with
      | .error e => (.error e, [.loadUser32])
      | .ok _ =>
        let root := env.getAncestor hwnd GA_ROOT
        (.ok (if root ≠ 0 then root else hwnd), [.loadUser32, .getAncestor hwnd])

/-- The body of the second `try` block of `_exclude_via_dwm`
(utils.py lines 106-119): resolve `DwmSetWindowAttribute`, resolve the root
handle, issue the attribute call and test the HRESULT against 0. -/
def dwmTryBody (env : WinEnv) (hwnd : Nat) : Except PyErr (Bool × String) × List PCall :=
  match env.resolveDwmSetWindowAttribute with
  | .error e => (.error e, [])
  | .ok _ =>
    match _get_root_hwnd env hwnd with
    | (.error e, tr) => (.error e, tr)
    | (.ok root, tr) =>
      match env.dwmSetWindowAttribute root DWMWA_EXCLUDED_FROM_CAPTURE with
      | .error e => (.error e, tr ++ [.dwmSetWindowAttribute root DWMWA_EXCLUDED_FROM_CAPTURE])
      | .ok hr =>
        (.ok (if hr = 0 then (true, "DWM") else (false, "None")),
         tr ++ [.dwmSetWindowAttribute root DWMWA_EXCLUDED_FROM_CAPTURE])

/-- `_exclude_via_dwm` (utils.py lines 87-122).  Total: every exception in the
body is caught (the `dwmapi` load by the first `try`, everything else by the
second), so the Python function always returns an `(applied, label)` pair. -/
def _exclude_via_dwm (env : WinEnv) (hwnd : Nat) : (Bool × String) × List PCall :=
  if env.isWindows = false then ((true, "DWM (non-Windows assumed)"), [])
  else
    match env.loadDwmapi with
    | .error _ => ((false, "None"), [.loadDwmapi])
    | .ok _ =>
      match dwmTryBody env hwnd with
      | (.ok r, tr) => (r, .loadDwmapi :: tr)
      | (.error _, tr) => ((false, "None"), .loadDwmapi :: tr)

/-- `_exclude_via_affinity` (utils.py lines 124-151).  Unlike the DWM path,
nothing here is wrapped in `try`, so a raised exception (library load,
function resolution, handle resolution or the affinity calls) propagates to
the caller: the result is an `Except`. -/
def _exclude_via_affinity (env : WinEnv) (hwnd : Nat) :
    Except PyErr (Bool × String) × List PCall :=
  if env.isWindows = false then (.ok (true, "Affinity (non-Windows assumed)"), [])
  else
    match env.loadUser32 with
    | .error e => (.error e, [.loadUser32])
    | .ok _ =>
      match env.resolveSetWindowDisplayAffinity with
      | .error e => (.error e, [.loadUser32])
      | .ok _ =>
        match _get_root_hwnd env hwnd with
        | (.error e, tr) => (.error e, .loadUser32 :: tr)
        | (.ok root, tr) =>
          match env.setWindowDisplayAffinity root WDA_EXCLUDEFROMCAPTURE with
          | .error e =>
            (.error e, .loadUser32 :: tr ++ [.setWindowDisplayAffinity root WDA_EXCLUDEFROMCAPTURE])
          | .ok true =>
            (.ok (true, "Affinity"),
             .loadUser32 :: tr ++ [.setWindowDisplayAffinity root WDA_EXCLUDEFROMCAPTURE])
          | .ok false =>
            match env.setWindowDisplayAffinity root WDA_MONITOR with
            | .error e =>
              (.error e,
               .loadUser32 :: tr ++ [.setWindowDisplayAffinity root WDA_EXCLUDEFROMCAPTURE,
                 .setWindowDisplayAffinity root WDA_MONITOR])
            | .ok true =>
              (.ok (true, "Monitor"),
               .loadUser32 :: tr ++ [.setWindowDisplayAffinity root WDA_EXCLUDEFROMCAPTURE,
                 .setWindowDisplayAffinity root WDA_MONITOR])
            | .ok false =>
              (.ok (false, "None"),
               .loadUser32 :: tr ++ [.setWindowDisplayAffinity root WDA_EXCLUDEFROMCAPTURE,
                 .setWindowDisplayAffinity root WDA_MONITOR])

/-- `set_window_excluded_from_capture` (utils.py lines 153-166): the exclusion
orchestrator.  Non-Windows short-circuits to `"DWM"`; otherwise the DWM
mechanism is attempted, and only on its failure the affinity mechanism, whose
label is returned regardless of its `applied` flag.  An exception from the
affinity path propagates (there is no `try` in the orchestrator). -/
def set_window_excluded_from_capture (env : WinEnv) (hwnd : Nat) :
    Except PyErr String × List PCall :=
  if env.isWindows = false then (.ok "DWM", [])
  else
    match _exclude_via_dwm env hwnd with
    | ((true, label), tr) => (.ok label, tr)
    | ((false, _), tr) =>
      match _exclude_via_affinity env hwnd with
      | (.error e, tr2) => (.error e, tr ++ tr2)
      | (.ok (_, label2), tr2) => (.ok label2, tr ++ tr2)

/-! ## Chat transport: `src/src/api_client.py` -/

/-- A JSON value as produced by `json.loads` (numbers restricted to integers;
no claim depends on fractional numbers). -/
inductive JSON where
  | null
  | bool (b : Bool)
  | num (n : Int)
  | str (s : String)
  | arr (xs : List JSON)
  | obj (fields : List (String × JSON))
deriving Repr

/-- Python truthiness of a decoded JSON value (`bool(x)`). -/
def JSON.truthy : JSON → Bool
  | .null => false
  | .bool b => b
  | .num n => n != 0
  | .str s => s != ""
  | .arr xs => !xs.isEmpty
  | .obj fs => !fs.isEmpty

/-- A decoded JSON object, as the `Dict[str, Any]` that
`_parse_response` is declared to take (keys assumed distinct). -/
abbrev JObj := List (String × JSON)

/-- Python `d.get(k)` on a dict: `some` value or `none` when absent. -/
def jget (d : JObj) (k : String) : Option JSON :=
  match d with
  | [] => none
  | (k', v) :: rest => if k' = k then some v else jget rest k

/-- The outcome of a Python call: a normal return, a raised `ChatAPIError`
with its message, or some other raised exception (ValueError, TypeError,
AttributeError, ...) identified by its rendered text. -/
inductive PyOutcome (α : Type) where
  | ok (a : α)
  | chatErr (msg : String)
  | pyExc (exc : String)
deriving Repr, DecidableEq

mutual

/-- Python `repr` of a decoded JSON value (string escaping inside container
reprs is not modelled; no claim inspects those renderings). -/
def pyRepr : JSON → String
  | .null => "None"
  | .bool true => "True"
  | .bool false => "False"
  | .num n => toString n
  | .str s => "'" ++ s ++ "'"
  | .arr xs => "[" ++ String.intercalate ", " (pyReprList xs) ++ "]"
  | .obj fs => "\x7b" ++ String.intercalate ", " (pyReprFields fs) ++ "\x7d"

/-- `repr` of each element of a JSON array. -/
def pyReprList : List JSON → List String
  | [] => []
  | x :: xs => pyRepr x :: pyReprList xs

/-- `'key': repr(value)` for each field of a JSON object. -/
def pyReprFields : List (String × JSON) → List String
  | [] => []
  | (k, v) :: fs => ("'" ++ k ++ "': " ++ pyRepr v) :: pyReprFields fs

end

/-- Python `str(x)` on a decoded JSON value: strings render as themselves,
everything else as its repr. -/
def pyStr : JSON → String
  | .str s => s
  | v => pyRepr v

/-- `GrokAPIClient._parse_response` (api_client.py lines 130-147), on the
`Dict[str, Any]` it is declared to take.  `ChatAPIError` raises are
distinguished from other Python exceptions (`AttributeError` from calling
`.get` on a non-dict, `TypeError`/`KeyError` from subscripting a non-list
`choices`), since the caller treats them differently. -/
def _parse_response (data : JObj) : PyOutcome String :=
  match jget data "error" with
  | some (.obj errFields) =>
    .chatErr ("API error: " ++
      (match jget errFields "message" with
       | some v => pyStr v
       | none => "Unknown API error"))
  | some _ => .pyExc "AttributeError"
  | none =>
    let choices : JSON :=
      match jget data "choices" with
      | some v => if v.truthy then v else .arr []
      | none => .arr []
    if choices.truthy = false then
      match jget data "output" with
      | some (.str s) => .ok s
      | _ => .chatErr "Malformed response: no choices."
    else
      match choices with
      | .arr (c0 :: _) =>
        (match c0 with
         | .obj c0f =>
           let m : JSON :=
             match jget c0f "message" with
             | some v => if v.truthy then v else .obj []
             | none => .obj []
           (match m with
            | .obj mf =>
              let content : Option JSON :=
                match jget mf "content" with
                | some v => if v.truthy then some v else jget c0f "text"
                | none => jget c0f "text"
              (match content with
               | some v =>
                 if v.truthy then .ok (pyStr v)
                 else .chatErr "Empty response from assistant."
               | none => .chatErr "Empty response from assistant.")
            | _ => .pyExc "AttributeError")
         | _ => .pyExc "AttributeError")
      | .str _ => .pyExc "AttributeError"
      | .obj _ => .pyExc "KeyError"
      | _ => .pyExc "TypeError"

/-- The HTTP response body that one attempt of `send_query` reads. -/
inductive RespBody where
  /-- `json.loads(text_body)` raises `JSONDecodeError` -/
  | notJson
  /-- the body decodes to the JSON object `d` -/
  | json (d : JObj)
deriving Repr

/-- What one iteration of `send_query`'s request block observes: either an
exception from session setup / POST / body read, or an HTTP response with a
status code and a body. -/
inductive HttpAttempt where
  /-- `aiohttp.ClientConnectionError` raised -/
  | connectionError (msg : String)
  /-- `asyncio.TimeoutError` raised -/
  | timeout
  /-- any other exception raised while performing the request -/
  | otherExc (msg : String)
  /-- an HTTP response was received -/
  | response (status : Nat) (body : RespBody)
deriving Repr

/-- Whether one iteration of the `for attempt in range(4)` loop terminates
the call (`.done`) or falls through to the next iteration via `continue`
(`.retry`). -/
inductive StepResult where
  | done (r : PyOutcome String)
  | retry
deriving Repr, DecidableEq

/-- One iteration of `send_query`'s loop (api_client.py lines 71-126) at index
`attempt`, given what the network does on that attempt. -/
def attemptOnce (net : Nat → HttpAttempt) (attempt : Nat) : StepResult :=
  match net attempt with
  | .connectionError msg =>
    if attempt < 3 then .retry
    else .done (.chatErr ("Network error: " ++ msg))
  | .timeout =>
    if attempt < 3 then .retry
    else .done (.chatErr "Request timed out.")
  | .otherExc msg => .done (.chatErr ("Unexpected error: " ++ msg))
  | .response status body =>
    if status = 401 then
      .done (.chatErr "Authentication failed (401). Check your OpenRouter API key.")
    else if status = 429 then
      if attempt < 3 then .retry
      else .done (.chatErr "Rate limited (429). Please slow down.")
    else if 500 ≤ status then
      if attempt < 3 then .retry
      else .done (.chatErr ("Server error (" ++ toString status ++ "). Try again later."))
    else
      match body with
      | .notJson =>
        .done (.chatErr "API did not return JSON (wrong URL or missing headers). Check app.log for the first 200 chars.")
      | .json d =>
        match _parse_response d with
        | .ok s => .done (.ok s)
        | .chatErr m => .done (.chatErr m)
        | .pyExc k => .done (.chatErr ("Unexpected error: " ++ k))

/-- The `for attempt in range(4)` loop: run `attemptOnce` on each index in
turn; when the list is exhausted the dead fall-through line 128 raises
`ChatAPIError("Failed after retries.")`.  Also counts the HTTP attempts
actually issued. -/
def sendLoop (net : Nat → HttpAttempt) : List Nat → PyOutcome String × Nat
  | [] => (.chatErr "Failed after retries.", 0)
  | a :: rest =>
    match attemptOnce net a with
    | .done r => (r, 1)
    | .retry =>
      match sendLoop net rest with
      | (r, n) => (r, n + 1)

/-- Python `not query or not query.strip()`: the query is empty or
all-whitespace. -/
def strippedEmpty (s : String) : Bool :=
  s.data.all (fun c => c.isWhitespace)

/-- `GrokAPIClient.send_query` (api_client.py lines 42-128): validate the
query, then run the four-iteration retry loop.  Returns the Python outcome
together with the number of HTTP attempts issued. -/
def send_query (net : Nat → HttpAttempt) (query : String) : PyOutcome String × Nat :=
  if strippedEmpty query then (.pyExc "ValueError: Query cannot be empty", 0)
  else sendLoop net [0, 1, 2, 3]

/-- The retry-triggering conditions of the claim: rate-limit (429),
server-error (status ≥ 500), network-error, or timeout. -/
def isRetryCondition : HttpAttempt → Bool
  | .connectionError _ => true
  | .timeout => true
  | .response status _ => status = 429 || 500 ≤ status
  | .otherExc _ => false

/-! ## Shared concrete environments and helper predicates -/

/-- Does this `Except` carry a normal return (no Python exception)? -/
def returnsLabel (r : Except PyErr String) : Bool :=
  match r with
  | .ok _ => true
  | .error _ => false

/-- A fully capable Windows platform: every library loads, every function
resolves, `GetAncestor` is the identity on handles, the DWM call returns
HRESULT 0 and the affinity calls report failure. -/
def winEnvOk : WinEnv where
  isWindows := true
  loadUser32 := .ok ()
  loadDwmapi := .ok ()
  resolveGetAncestor := .ok ()
  resolveDwmSetWindowAttribute := .ok ()
  resolveSetWindowDisplayAffinity := .ok ()
  getAncestor := fun h _ => h
  dwmSetWindowAttribute := fun _ _ => .ok 0
  setWindowDisplayAffinity := fun _ _ => .ok false

/-! ## Helper lemmas about the DWM attempt's trace and labels -/

theorem get_root_no_affinity (env : WinEnv) (hwnd : Nat) :
    ∀ c ∈ (_get_root_hwnd env hwnd).2, c.isAffinityCall = false := by
  intro c hc
  by_cases hw : env.isWindows = false
  · simp [_get_root_hwnd, hw] at hc
  · cases h1 : env.loadUser32 with
    | error e =>
      simp [_get_root_hwnd, hw, h1] at hc
      simp [hc, PCall.isAffinityCall]
    | ok u =>
      cases h2 : env.resolveGetAncestor with
      | error e =>
        simp [_get_root_hwnd, hw, h1, h2] at hc
        simp [hc, PCall.isAffinityCall]
      | ok v =>
        simp [_get_root_hwnd, hw, h1, h2] at hc
        rcases hc with hc | hc <;> simp [hc, PCall.isAffinityCall]

theorem dwmTryBody_no_affinity (env : WinEnv) (hwnd : Nat) :
    ∀ c ∈ (dwmTryBody env hwnd).2, c.isAffinityCall = false := by
  intro c hc
  cases h1 : env.resolveDwmSetWindowAttribute with
  | error e => simp [dwmTryBody, h1] at hc
  | ok u =>
    cases hroot : _get_root_hwnd env hwnd with
    | mk res tr =>
      cases res with
      | error e =>
        simp [dwmTryBody, h1, hroot] at hc
        exact get_root_no_affinity env hwnd c (by rw [hroot]; exact hc)
      | ok root =>
        cases h3 : env.dwmSetWindowAttribute root DWMWA_EXCLUDED_FROM_CAPTURE with
        | error e =>
          simp [dwmTryBody, h1, hroot, h3] at hc
          rcases hc with hc | hc
          · exact get_root_no_affinity env hwnd c (by rw [hroot]; exact hc)
          · simp [hc, PCall.isAffinityCall]
        | ok hr =>
          simp [dwmTryBody, h1, hroot, h3] at hc
          rcases hc with hc | hc
          · exact get_root_no_affinity env hwnd c (by rw [hroot]; exact hc)
          · simp [hc, PCall.isAffinityCall]

theorem exclude_dwm_no_affinity (env : WinEnv) (hwnd : Nat) :
    ∀ c ∈ (_exclude_via_dwm env hwnd).2, c.isAffinityCall = false := by
  intro c hc
  by_cases hw : env.isWindows = false
  · simp [_exclude_via_dwm, hw] at hc
  · cases h1 : env.loadDwmapi with
    | error e =>
      simp [_exclude_via_dwm, hw, h1] at hc
      simp [hc, PCall.isAffinityCall]
    | ok u =>
      cases hbody : dwmTryBody env hwnd with
      | mk res tr =>
        cases res with
        | error e =>
          simp [_exclude_via_dwm, hw, h1, hbody] at hc
          rcases hc with hc | hc
          · simp [hc, PCall.isAffinityCall]
          · exact dwmTryBody_no_affinity env hwnd c (by rw [hbody]; exact hc)
        | ok r =>
          simp [_exclude_via_dwm, hw, h1, hbody] at hc
          rcases hc with hc | hc
          · simp [hc, PCall.isAffinityCall]
          · exact dwmTryBody_no_affinity env hwnd c (by rw [hbody]; exact hc)

/-! ## Claims about the capture-exclusion subsystem -/

/-- C1: on a Windows host, the orchestrator attempts the Primary (DWM)
mechanism first and the legacy affinity mechanism only on its failure; it
returns exactly the label of the first mechanism attempt that reported
success (the trace of the combined call is the DWM trace followed, only in
the failure case, by the affinity trace); and when the Primary mechanism
reports success no display-affinity call is ever issued. -/
theorem C1_orchestrator_first_success (env : WinEnv) (hwnd : Nat)
    (hwin : env.isWindows = true) :
    (∀ label tr, _exclude_via_dwm env hwnd = ((true, label), tr) →
      set_window_excluded_from_capture env hwnd = (.ok label, tr) ∧
      ∀ c ∈ tr, c.isAffinityCall = false) ∧
    (∀ label tr applied label2 tr2,
      _exclude_via_dwm env hwnd = ((false, label), tr) →
      _exclude_via_affinity env hwnd = (.ok (applied, label2), tr2) →
      set_window_excluded_from_capture env hwnd = (.ok label2, tr ++ tr2)) := by
  constructor
  · intro label tr hdwm
    constructor
    · simp [set_window_excluded_from_capture, hwin, hdwm]
    · intro c hc
      exact exclude_dwm_no_affinity env hwnd c (by rw [hdwm]; exact hc)
  · intro label tr applied label2 tr2 hdwm haff
    simp [set_window_excluded_from_capture, hwin, hdwm, haff]

/-- C1 witness: on the fully capable platform `winEnvOk` the DWM attempt
succeeds with label `"DWM"`, the orchestrator returns it with the DWM trace,
and that trace contains no affinity call. -/
theorem C1_witness :
    set_window_excluded_from_capture winEnvOk 4096 =
      (.ok "DWM",
       [.loadDwmapi, .loadUser32, .getAncestor 4096, .dwmSetWindowAttribute 4096 39]) ∧
    ∀ c ∈ ([.loadDwmapi, .loadUser32, .getAncestor 4096,
            .dwmSetWindowAttribute 4096 39] : List PCall), c.isAffinityCall = false :=
  (C1_orchestrator_first_success winEnvOk 4096 rfl).1 "DWM"
    [.loadDwmapi, .loadUser32, .getAncestor 4096, .dwmSetWindowAttribute 4096 39] rfl

/-- C2 counterexample: the claim says no outcome of the underlying platform
calls can make `set_window_excluded_from_capture` raise.  But the legacy
affinity path is not wrapped in any `try`: on a Windows host where the DWM
attempt fails (here: dwmapi does not load) and `ctypes.WinDLL("user32")`
raises inside `_exclude_via_affinity`, that exception escapes the
orchestrator instead of becoming a status label. -/
theorem C2_counterexample :
    (set_window_excluded_from_capture
      { winEnvOk with
          loadDwmapi := .error "OSError: dwmapi load failed"
          loadUser32 := .error "OSError: user32 load failed" } 4096).1 =
      .error "OSError: user32 load failed" := rfl

/-- C2 amended: the orchestrator never raises provided the legacy path's own
platform interactions do not raise — if `user32` loads, `GetAncestor` and
`SetWindowDisplayAffinity` resolve, and every affinity call returns normally,
then for every handle and every behaviour of the DWM path (library-load
failure, resolution failure, call exception, any HRESULT) the orchestrator
returns a status label.  Failures on the DWM path are all caught. -/
theorem get_root_ok (env : WinEnv) (hwnd : Nat)
    (h1 : env.loadUser32 = .ok ()) (h2 : env.resolveGetAncestor = .ok ()) :
    ∃ root tr, _get_root_hwnd env hwnd = (.ok root, tr) := by
  by_cases hw : env.isWindows = false
  · exact ⟨hwnd, [], by simp [_get_root_hwnd, hw]⟩
  · refine ⟨if env.getAncestor hwnd GA_ROOT = 0 then hwnd
        else env.getAncestor hwnd GA_ROOT,
      [.loadUser32, .getAncestor hwnd], ?_⟩
    simp [_get_root_hwnd, hw, h1, h2]

theorem exclude_affinity_spec (env : WinEnv) (hwnd root : Nat) (tr : List PCall)
    (b1 b2 : Bool)
    (hw : env.isWindows = true)
    (h1 : env.loadUser32 = .ok ())
    (h3 : env.resolveSetWindowDisplayAffinity = .ok ())
    (hroot : _get_root_hwnd env hwnd = (.ok root, tr))
    (hb1 : env.setWindowDisplayAffinity root WDA_EXCLUDEFROMCAPTURE = .ok b1)
    (hb2 : env.setWindowDisplayAffinity root WDA_MONITOR = .ok b2) :
    ∃ tr2, _exclude_via_affinity env hwnd =
      (.ok (if b1 then (true, "Affinity")
            else if b2 then (true, "Monitor") else (false, "None")), tr2) := by
  have hw' : ¬env.isWindows = false := by simp [hw]
  cases b1 with
  | true =>
    refine ⟨.loadUser32 :: tr ++ [.setWindowDisplayAffinity root WDA_EXCLUDEFROMCAPTURE], ?_⟩
    simp [_exclude_via_affinity, hw', h1, h3, hroot, hb1]
  | false =>
    refine ⟨.loadUser32 :: tr ++ [.setWindowDisplayAffinity root WDA_EXCLUDEFROMCAPTURE,
      .setWindowDisplayAffinity root WDA_MONITOR], ?_⟩
    cases b2 <;> simp [_exclude_via_affinity, hw', h1, h3, hroot, hb1, hb2]

theorem C2_amended_no_escape (env : WinEnv) (hwnd : Nat)
    (h1 : env.loadUser32 = .ok ()) (h2 : env.resolveGetAncestor = .ok ())
    (h3 : env.resolveSetWindowDisplayAffinity = .ok ())
    (h4 : ∀ root affinity, ∃ b, env.setWindowDisplayAffinity root affinity = .ok b) :
    returnsLabel (set_window_excluded_from_capture env hwnd).1 = true := by
  by_cases hw : env.isWindows = false
  · simp [set_window_excluded_from_capture, hw, returnsLabel]
  · have hw' : env.isWindows = true := by
      cases h : env.isWindows
      · exact absurd h hw
      · rfl
    obtain ⟨root, tr, hroot⟩ := get_root_ok env hwnd h1 h2
    obtain ⟨b1, hb1⟩ := h4 root WDA_EXCLUDEFROMCAPTURE
    obtain ⟨b2, hb2⟩ := h4 root WDA_MONITOR
    obtain ⟨tr2, haff⟩ :=
      exclude_affinity_spec env hwnd root tr b1 b2 hw' h1 h3 hroot hb1 hb2
    cases hdwm : _exclude_via_dwm env hwnd with
    | mk r trd =>
      obtain ⟨ok, label⟩ := r
      cases ok with
      | true => simp [set_window_excluded_from_capture, hw, hdwm, returnsLabel]
      | false =>
        cases b1 <;> cases b2 <;>
          simp [set_window_excluded_from_capture, hw, hdwm, haff, returnsLabel]

/-- C2 amended witness: on a platform where the DWM call is rejected
(HRESULT 1) and both affinity calls report failure, the orchestrator still
returns a label. -/
theorem C2_amended_witness :
    returnsLabel (set_window_excluded_from_capture
      { winEnvOk with dwmSetWindowAttribute := fun _ _ => .ok 1 } 4096).1 = true :=
  C2_amended_no_escape { winEnvOk with dwmSetWindowAttribute := fun _ _ => .ok 1 }
    4096 rfl rfl rfl (fun _ _ => ⟨false, rfl⟩)

/-- C3: on a non-Windows host the orchestrator returns the fixed label
`"DWM"` immediately, with an empty platform-call trace, for every handle. -/
theorem C3_non_windows_noop (env : WinEnv) (hwnd : Nat)
    (hw : env.isWindows = false) :
    set_window_excluded_from_capture env hwnd = (.ok "DWM", []) := by
  simp [set_window_excluded_from_capture, hw]

/-- C3 witness at the concrete non-Windows platform and handle 7. -/
theorem C3_witness :
    set_window_excluded_from_capture { winEnvOk with isWindows := false } 7 =
      (.ok "DWM", []) :=
  C3_non_windows_noop { winEnvOk with isWindows := false } 7 rfl

/-- C4: for a resolved handle, the legacy mechanism tries the full-exclusion
affinity value first and reports `(true, "Affinity")` on success; otherwise it
tries the monitor-only value and reports `(true, "Monitor")` on success; if
both calls fail it reports `(false, "None")`. -/
theorem C4_affinity_two_tier (env : WinEnv) (hwnd root : Nat) (tr : List PCall)
    (hwin : env.isWindows = true)
    (h1 : env.loadUser32 = .ok ())
    (h3 : env.resolveSetWindowDisplayAffinity = .ok ())
    (hroot : _get_root_hwnd env hwnd = (.ok root, tr)) :
    (env.setWindowDisplayAffinity root WDA_EXCLUDEFROMCAPTURE = .ok true →
      (_exclude_via_affinity env hwnd).1 = .ok (true, "Affinity")) ∧
    (env.setWindowDisplayAffinity root WDA_EXCLUDEFROMCAPTURE = .ok false →
      env.setWindowDisplayAffinity root WDA_MONITOR = .ok true →
      (_exclude_via_affinity env hwnd).1 = .ok (true, "Monitor")) ∧
    (env.setWindowDisplayAffinity root WDA_EXCLUDEFROMCAPTURE = .ok false →
      env.setWindowDisplayAffinity root WDA_MONITOR = .ok false →
      (_exclude_via_affinity env hwnd).1 = .ok (false, "None")) := by
  have hw' : ¬env.isWindows = false := by simp [hwin]
  refine ⟨?_, ?_, ?_⟩
  · intro hb1
    simp [_exclude_via_affinity, hw', h1, h3, hroot, hb1]
  · intro hb1 hb2
    simp [_exclude_via_affinity, hw', h1, h3, hroot, hb1, hb2]
  · intro hb1 hb2
    simp [_exclude_via_affinity, hw', h1, h3, hroot, hb1, hb2]

/-- C4 witness: the spec's second scenario — the full-exclusion value is
rejected and the monitor-only value succeeds, giving label `"Monitor"`. -/
theorem C4_witness :
    (_exclude_via_affinity
      { winEnvOk with setWindowDisplayAffinity := fun _ v => .ok (v == WDA_MONITOR) }
      8192).1 = .ok (true, "Monitor") :=
  (C4_affinity_two_tier
    { winEnvOk with setWindowDisplayAffinity := fun _ v => .ok (v == WDA_MONITOR) }
    8192 8192 [.loadUser32, .getAncestor 8192] rfl rfl rfl rfl).2.1 rfl rfl

/-- C5: on a capable host the DWM attempt reports success exactly when the
attribute-set call returns HRESULT 0; a nonzero status, and equally a failure
to load `dwmapi`, yield the failure outcome `(false, "None")` (the function is
total — no exception escapes it). -/
theorem C5_dwm_status_zero (env : WinEnv) (hwnd : Nat)
    (hwin : env.isWindows = true) :
    (∀ e, env.loadDwmapi = .error e →
      (_exclude_via_dwm env hwnd).1 = (false, "None")) ∧
    (∀ root tr hr, env.loadDwmapi = .ok () →
      env.resolveDwmSetWindowAttribute = .ok () →
      _get_root_hwnd env hwnd = (.ok root, tr) →
      env.dwmSetWindowAttribute root DWMWA_EXCLUDED_FROM_CAPTURE = .ok hr →
      (_exclude_via_dwm env hwnd).1 =
        if hr = 0 then (true, "DWM") else (false, "None")) := by
  have hw' : ¬env.isWindows = false := by simp [hwin]
  constructor
  · intro e he
    simp [_exclude_via_dwm, hw', he]
  · intro root tr hr h1 h2 hroot h3
    by_cases hhr : hr = 0 <;>
      simp [_exclude_via_dwm, dwmTryBody, hw', h1, h2, hroot, h3, hhr]

/-- C5 witness: on `winEnvOk` the DWM call returns HRESULT 0 and the attempt
reports success with label `"DWM"`. -/
theorem C5_witness : (_exclude_via_dwm winEnvOk 4096).1 = (true, "DWM") := by
  have h := (C5_dwm_status_zero winEnvOk 4096 rfl).2
    4096 [.loadUser32, .getAncestor 4096] 0 rfl rfl rfl rfl
  simpa using h

/-- C6: when the GetAncestor(GA_ROOT) query returns the null handle, handle
resolution returns the original input handle unchanged (a normal return, so
resolution never aborts the pipeline). -/
theorem C6_null_root_fallback (env : WinEnv) (hwnd : Nat)
    (h1 : env.loadUser32 = .ok ()) (h2 : env.resolveGetAncestor = .ok ())
    (h0 : env.getAncestor hwnd GA_ROOT = 0) :
    (_get_root_hwnd env hwnd).1 = .ok hwnd := by
  by_cases hw : env.isWindows = false <;>
    simp [_get_root_hwnd, hw, h1, h2, h0]

/-- C6 witness: a platform whose ancestor query always returns NULL resolves
handle 7 to itself. -/
theorem C6_witness :
    (_get_root_hwnd { winEnvOk with getAncestor := fun _ _ => 0 } 7).1 = .ok 7 :=
  C6_null_root_fallback { winEnvOk with getAncestor := fun _ _ => 0 } 7 rfl rfl rfl

/-- C7: handle resolution is idempotent — if resolving `hwnd` returned `r`,
then resolving `r` returns `r`, under the platform assumption that the
ancestor-of-root primitive maps an already-resolved (top-level) handle to
itself. -/
theorem get_root_eq (env : WinEnv) (hwnd : Nat)
    (hw : ¬env.isWindows = false)
    (h1 : env.loadUser32 = .ok ()) (h2 : env.resolveGetAncestor = .ok ()) :
    _get_root_hwnd env hwnd =
      (.ok (if env.getAncestor hwnd GA_ROOT = 0 then hwnd
            else env.getAncestor hwnd GA_ROOT),
       [.loadUser32, .getAncestor hwnd]) := by
  simp [_get_root_hwnd, hw, h1, h2]

theorem C7_resolution_idempotent (env : WinEnv) (hwnd r : Nat)
    (hfix : ∀ x, env.getAncestor x GA_ROOT ≠ 0 →
      env.getAncestor (env.getAncestor x GA_ROOT) GA_ROOT =
        env.getAncestor x GA_ROOT)
    (hres : (_get_root_hwnd env hwnd).1 = .ok r) :
    (_get_root_hwnd env r).1 = .ok r := by
  by_cases hw : env.isWindows = false
  · simp [_get_root_hwnd, hw] at hres ⊢
  · cases h1 : env.loadUser32 with
    | error e => simp [_get_root_hwnd, hw, h1] at hres
    | ok u =>
      cases u
      cases h2 : env.resolveGetAncestor with
      | error e => simp [_get_root_hwnd, hw, h1, h2] at hres
      | ok v =>
        cases v
        rw [get_root_eq env hwnd hw h1 h2] at hres
        simp only [Except.ok.injEq] at hres
        by_cases hga : env.getAncestor hwnd GA_ROOT = 0
        · rw [if_pos hga] at hres
          subst hres
          rw [get_root_eq env hwnd hw h1 h2]
          simp only [Except.ok.injEq]
          rw [if_pos hga]
        · rw [if_neg hga] at hres
          subst hres
          have hfx := hfix hwnd hga
          rw [get_root_eq env (env.getAncestor hwnd GA_ROOT) hw h1 h2]
          simp only [Except.ok.injEq]
          rw [hfx, if_neg hga]

/-- C7 witness: on `winEnvOk` (whose ancestor query is the identity)
resolving handle 5 yields 5, and resolving it again yields 5. -/
theorem C7_witness : (_get_root_hwnd winEnvOk 5).1 = .ok 5 :=
  C7_resolution_idempotent winEnvOk 5 5 (fun _ _ => rfl) rfl

theorem dwmTryBody_ok_values (env : WinEnv) (hwnd : Nat) (r : Bool × String)
    (h : (dwmTryBody env hwnd).1 = .ok r) :
    r = (true, "DWM") ∨ r = (false, "None") := by
  cases h1 : env.resolveDwmSetWindowAttribute with
  | error e => simp [dwmTryBody, h1] at h
  | ok u =>
    cases hroot : _get_root_hwnd env hwnd with
    | mk res tr =>
      cases res with
      | error e => simp [dwmTryBody, h1, hroot] at h
      | ok root =>
        cases h3 : env.dwmSetWindowAttribute root DWMWA_EXCLUDED_FROM_CAPTURE with
        | error e => simp [dwmTryBody, h1, hroot, h3] at h
        | ok hr =>
          simp only [dwmTryBody, h1, hroot, h3] at h
          simp only [Except.ok.injEq] at h
          by_cases hhr : hr = 0
          · left; rw [← h, if_pos hhr]
          · right; rw [← h, if_neg hhr]

theorem exclude_dwm_values (env : WinEnv) (hwnd : Nat)
    (hw : ¬env.isWindows = false) :
    (_exclude_via_dwm env hwnd).1 = (true, "DWM") ∨
    (_exclude_via_dwm env hwnd).1 = (false, "None") := by
  cases h1 : env.loadDwmapi with
  | error e =>
    right
    simp [_exclude_via_dwm, hw, h1]
  | ok u =>
    cases hbody : dwmTryBody env hwnd with
    | mk res tr =>
      cases res with
      | error e =>
        right
        simp [_exclude_via_dwm, hw, h1, hbody]
      | ok r =>
        have hv := dwmTryBody_ok_values env hwnd r (by rw [hbody])
        rcases hv with hv | hv
        · left; simp [_exclude_via_dwm, hw, h1, hbody, hv]
        · right; simp [_exclude_via_dwm, hw, h1, hbody, hv]

theorem exclude_affinity_values (env : WinEnv) (hwnd : Nat) (p : Bool × String)
    (hw : ¬env.isWindows = false)
    (h : (_exclude_via_affinity env hwnd).1 = .ok p) :
    p.2 = "Affinity" ∨ p.2 = "Monitor" ∨ p.2 = "None" := by
  cases h1 : env.loadUser32 with
  | error e => simp [_exclude_via_affinity, hw, h1] at h
  | ok u =>
    cases h3 : env.resolveSetWindowDisplayAffinity with
    | error e => simp [_exclude_via_affinity, hw, h1, h3] at h
    | ok v =>
      cases hroot : _get_root_hwnd env hwnd with
      | mk res tr =>
        cases res with
        | error e => simp [_exclude_via_affinity, hw, h1, h3, hroot] at h
        | ok root =>
          cases hb1 : env.setWindowDisplayAffinity root WDA_EXCLUDEFROMCAPTURE with
          | error e => simp [_exclude_via_affinity, hw, h1, h3, hroot, hb1] at h
          | ok b1 =>
            cases b1 with
            | true =>
              simp [_exclude_via_affinity, hw, h1, h3, hroot, hb1] at h
              left; rw [← h]
            | false =>
              cases hb2 : env.setWindowDisplayAffinity root WDA_MONITOR with
              | error e =>
                simp [_exclude_via_affinity, hw, h1, h3, hroot, hb1, hb2] at h
              | ok b2 =>
                cases b2 with
                | true =>
                  simp [_exclude_via_affinity, hw, h1, h3, hroot, hb1, hb2] at h
                  right; left; rw [← h]
                | false =>
                  simp [_exclude_via_affinity, hw, h1, h3, hroot, hb1, hb2] at h
                  right; right; rw [← h]

/-- C8: every label the orchestrator actually returns to its caller is one of
the four strings `"DWM"`, `"Affinity"`, `"Monitor"`, `"None"` — in
particular, the extended non-Windows labels produced inside the mechanism
functions never reach the caller. -/
theorem C8_label_vocabulary (env : WinEnv) (hwnd : Nat) (label : String)
    (h : (set_window_excluded_from_capture env hwnd).1 = .ok label) :
    label = "DWM" ∨ label = "Affinity" ∨ label = "Monitor" ∨ label = "None" := by
  by_cases hw : env.isWindows = false
  · left
    simp [set_window_excluded_from_capture, hw] at h
    exact h.symm
  · cases hdwm : _exclude_via_dwm env hwnd with
    | mk rd trd =>
      obtain ⟨ok, lab⟩ := rd
      cases ok with
      | true =>
        have hv := exclude_dwm_values env hwnd hw
        rw [hdwm] at hv
        simp [set_window_excluded_from_capture, hw, hdwm] at h
        rcases hv with hv | hv
        · left
          simp at hv
          rw [← h]
          exact hv
        · simp at hv
      | false =>
        cases haff : _exclude_via_affinity env hwnd with
        | mk ra tra =>
          cases ra with
          | error e =>
            simp [set_window_excluded_from_capture, hw, hdwm, haff] at h
          | ok p =>
            have hl := exclude_affinity_values env hwnd p hw (by rw [haff])
            simp [set_window_excluded_from_capture, hw, hdwm, haff] at h
            right
            rw [← h]
            exact hl

/-- C8 witness: on `winEnvOk` the orchestrator returns `"DWM"`, which is in
the four-label vocabulary. -/
theorem C8_witness :
    "DWM" = "DWM" ∨ "DWM" = "Affinity" ∨ "DWM" = "Monitor" ∨ "DWM" = "None" :=
  C8_label_vocabulary winEnvOk 4096 "DWM" rfl

/-! ## Claims about the chat transport -/

theorem attemptOnce_retry (net : Nat → HttpAttempt) (i : Nat)
    (hr : isRetryCondition (net i) = true) (hi : i < 3) :
    attemptOnce net i = .retry := by
  cases hnet : net i with
  | connectionError m => simp [attemptOnce, hnet, hi]
  | timeout => simp [attemptOnce, hnet, hi]
  | otherExc m =>
    rw [hnet] at hr
    simp [isRetryCondition] at hr
  | response status body =>
    rw [hnet] at hr
    simp [isRetryCondition] at hr
    rcases hr with hr | hr
    · subst hr
      simp [attemptOnce, hnet, hi]
    · have h401 : status ≠ 401 := by omega
      have h429 : status ≠ 429 := by omega
      simp [attemptOnce, hnet, hi, h401, h429, hr]

theorem attemptOnce_last_fails (net : Nat → HttpAttempt)
    (hr : isRetryCondition (net 3) = true) :
    ∃ m, attemptOnce net 3 = .done (.chatErr m) := by
  cases hnet : net 3 with
  | connectionError m =>
    exact ⟨"Network error: " ++ m, by simp [attemptOnce, hnet]⟩
  | timeout =>
    exact ⟨"Request timed out.", by simp [attemptOnce, hnet]⟩
  | otherExc m =>
    rw [hnet] at hr
    simp [isRetryCondition] at hr
  | response status body =>
    rw [hnet] at hr
    simp [isRetryCondition] at hr
    rcases hr with hr | hr
    · subst hr
      exact ⟨"Rate limited (429). Please slow down.", by simp [attemptOnce, hnet]⟩
    · have h401 : status ≠ 401 := by omega
      have h429 : status ≠ 429 := by omega
      exact ⟨"Server error (" ++ toString status ++ "). Try again later.",
        by simp [attemptOnce, hnet, h401, h429, hr]⟩

/-- C9: for a non-blank query, (a) if every attempt hits a rate-limit (429),
server-error (≥ 500), network-error or timeout condition, `send_query` issues
exactly 4 HTTP attempts and then fails with a classified `ChatAPIError`
(never an unclassified exception and never an unbounded loop — the model is a
total function over `range(4)`); (b) a 401 response is raised as a classified
`ChatAPIError` after a single attempt, with no retry; (c) a response whose
body parses but is malformed (no choices) is likewise raised after a single
attempt with no retry. -/
theorem C9_bounded_retries (net : Nat → HttpAttempt) (query : String)
    (hq : strippedEmpty query = false) :
    ((∀ i, i < 4 → isRetryCondition (net i) = true) →
      ∃ m, send_query net query = (.chatErr m, 4)) ∧
    (∀ b, net 0 = .response 401 b →
      send_query net query =
        (.chatErr "Authentication failed (401). Check your OpenRouter API key.", 1)) ∧
    (∀ d, net 0 = .response 200 (.json d) →
      _parse_response d = .chatErr "Malformed response: no choices." →
      send_query net query = (.chatErr "Malformed response: no choices.", 1)) := by
  refine ⟨?_, ?_, ?_⟩
  · intro hall
    obtain ⟨m, h3⟩ := attemptOnce_last_fails net (hall 3 (by omega))
    have h0 := attemptOnce_retry net 0 (hall 0 (by omega)) (by omega)
    have h1 := attemptOnce_retry net 1 (hall 1 (by omega)) (by omega)
    have h2 := attemptOnce_retry net 2 (hall 2 (by omega)) (by omega)
    exact ⟨m, by simp [send_query, hq, sendLoop, h0, h1, h2, h3]⟩
  · intro b hb
    have hstep : attemptOnce net 0 =
        .done (.chatErr "Authentication failed (401). Check your OpenRouter API key.") := by
      simp [attemptOnce, hb]
    simp [send_query, hq, sendLoop, hstep]
  · intro d hd hparse
    have hstep : attemptOnce net 0 =
        .done (.chatErr "Malformed response: no choices.") := by
      simp [attemptOnce, hd, hparse]
    simp [send_query, hq, sendLoop, hstep]

/-- C9 witness: a 401 response fails after exactly one attempt with the
classified authentication error. -/
theorem C9_witness :
    send_query (fun _ => HttpAttempt.response 401 RespBody.notJson) "hi" =
      (.chatErr "Authentication failed (401). Check your OpenRouter API key.", 1) :=
  (C9_bounded_retries (fun _ => .response 401 .notJson) "hi" rfl).2.1 .notJson rfl

/-- C10 counterexample: take `data = {"choices": 5, "output": "hi"}`.  It has
no `"error"` key, no non-empty `"choices"` list (the value is the number 5,
not a list), and a top-level `"output"` string — yet `_parse_response` does
not return `"hi"`: since `5` is truthy, the code takes the choices path and
`choices[0]` raises an unclassified `TypeError`. -/
theorem C10_counterexample :
    jget [("choices", JSON.num 5), ("output", JSON.str "hi")] "error" = none ∧
    (∀ xs, jget [("choices", JSON.num 5), ("output", JSON.str "hi")] "choices" ≠
      some (.arr xs)) ∧
    jget [("choices", JSON.num 5), ("output", JSON.str "hi")] "output" =
      some (.str "hi") ∧
    _parse_response [("choices", JSON.num 5), ("output", JSON.str "hi")] =
      .pyExc "TypeError" := by
  refine ⟨rfl, ?_, rfl, rfl⟩
  intro xs h
  simp [jget] at h

/-- C10 amended: when the decoded object has no `"error"` key and its
`"choices"` value is absent or falsy (so the code's `data.get("choices") or
[]` yields the empty list), `_parse_response` returns the top-level
`"output"` value whenever it is a string, and raises the malformed-response
`ChatAPIError` exactly when `"output"` is absent or not a string. -/
theorem truthy_arr_nil : (JSON.arr []).truthy = false := rfl

theorem C10_output_fallback (d : JObj)
    (herr : jget d "error" = none)
    (hch : ∀ v, jget d "choices" = some v → v.truthy = false) :
    _parse_response d =
      (match jget d "output" with
       | some (.str s) => .ok s
       | _ => .chatErr "Malformed response: no choices.") := by
  cases hc : jget d "choices" with
  | none =>
    cases ho : jget d "output" with
    | none => simp [_parse_response, herr, hc, ho, truthy_arr_nil]
    | some w => cases w <;> simp [_parse_response, herr, hc, ho, truthy_arr_nil]
  | some v =>
    have hv := hch v hc
    cases ho : jget d "output" with
    | none => simp [_parse_response, herr, hc, ho, hv, truthy_arr_nil]
    | some w => cases w <;> simp [_parse_response, herr, hc, ho, hv, truthy_arr_nil]

/-- C10 witness: `{"output": "hi"}` (no error, no choices) parses to `"hi"`. -/
theorem C10_witness : _parse_response [("output", JSON.str "hi")] = .ok "hi" := by
  have h := C10_output_fallback [("output", JSON.str "hi")] rfl
    (fun v hv => by simp [jget] at hv)
  simpa [jget] using h
